import Mathlib

/-!
Verification of the exam-taking core of the AI-EXAM-SYSTEM frontend.

The definitions below are a shallow embedding of the client-side exam
session logic found in
`frontend/app/dashboard/student/exams/[id]/page.tsx` and
`frontend/lib/examUtils.ts`:

* question-text parsing (`parseQuestionText`, from `examUtils.ts`),
  with JavaScript strings modelled as `List Char` and
  `String.prototype.split` / `trim` modelled by `splitFirst` /
  `splitChar` / `jsTrim`;
* the answer staging store (`handleTextChange`, `handleFileChange`),
  with the `answers` record modelled as a function `Nat → Option Draft`;
* the submission pipeline (`buildPayload`, `handleSubmit`) and its
  in-flight guard (`submitStep`);
* the countdown timer (`timerTick`, `timerRun`) and the exam loader
  (`fetchExamResult`, `render`).

Theorems at the end of the file settle the behavioural claims about
this code.
-/

/-! ### JavaScript string primitives over `List Char` -/

/-- Test whether `sep` is an initial segment of `l`; `beginsWith sep l` is true when `sep` is an initial segment of `l`
(the test JavaScript `String.prototype.split` performs at each scan
position, and `line.startsWith("- ")` in `examUtils.ts` line 27). -/
def beginsWith : List Char → List Char → Bool
  | [], _ => true
  | _ :: _, [] => false
  | s :: ss, c :: cs => s == c && beginsWith ss cs

/-- First occurrence of `sep` in `l`: returns the part strictly before
the first occurrence together with the part strictly after it, or
`none` when `sep` does not occur.  This models one scanning step of
JavaScript `String.prototype.split(sep)` for a non-empty `sep`. -/
def splitFirst (sep : List Char) : List Char → Option (List Char × List Char)
  | [] => if beginsWith sep [] then some ([], []) else none
  | c :: cs =>
    if beginsWith sep (c :: cs) then some ([], (c :: cs).drop sep.length)
    else (splitFirst sep cs).map (fun p => (c :: p.1, p.2))

/-- JavaScript `String.prototype.split` on a single character, e.g.
`optionsBlock.split("\n")` in `examUtils.ts` line 25. -/
def splitChar (ch : Char) : List Char → List (List Char)
  | [] => [[]]
  | c :: cs =>
    let r := splitChar ch cs
    if c == ch then [] :: r
    else
      match r with
      | [] => [[c]]
      | h :: t => (c :: h) :: t

/-- JavaScript `String.prototype.trim` (`examUtils.ts` line 26):
whitespace is stripped from both ends. -/
def jsTrim (l : List Char) : List Char :=
  ((l.dropWhile Char.isWhitespace).reverse.dropWhile Char.isWhitespace).reverse

/-! ### `parseQuestionText` (`frontend/lib/examUtils.ts`, lines 8-44) -/

/-- Result record of `parseQuestionText` (`ParsedQuestion` in
`examUtils.ts`). -/
structure ParsedQuestion where
  isMCQ : Bool
  questionText : List Char
  options : List (List Char)
deriving DecidableEq, Repr

/-- The options marker `"\n\nOptions:\n"` that `parseQuestionText`
splits on (`examUtils.ts` line 10). -/
def markerL : List Char := "\n\nOptions:\n".data

/-- The marker without its final newline, `"\n\nOptions:"`; a prompt
free of this substring cannot interfere with the marker search. -/
def markerHead : List Char := "\n\nOptions:".data

/-- Option-line extraction from the options block (`examUtils.ts`
lines 24-28): split into lines, trim each, keep lines starting with
`"- "`, drop that two-character bullet. -/
def parseOptions (blk : List Char) : List (List Char) :=
  (((splitChar '\n' blk).map jsTrim).filter
    (fun line => beginsWith "- ".data line)).map (List.drop 2)

/-- Embedding of `parseQuestionText` (`examUtils.ts` lines 8-44).  The source
computes `parts = text.split("\n\nOptions:\n")` and reads `parts[0]`
and `parts[1]`; `parts.length < 2` is exactly `splitFirst` returning
`none`, `parts[0]` is the part before the first marker occurrence, and
`parts[1]` is the segment between the first occurrence and the next
one (or the whole rest when the marker occurs only once), because
JavaScript `split` cuts at every occurrence. -/
def parseQuestionText (text : List Char) : ParsedQuestion :=
  match splitFirst markerL text with
  | none => { isMCQ := false, questionText := text, options := [] }
  | some (pre, rest) =>
    let optionsBlock :=
      match splitFirst markerL rest with
      | none => rest
      | some (blk, _) => blk
    let options := parseOptions optionsBlock
    if options = [] then { isMCQ := false, questionText := text, options := [] }
    else { isMCQ := true, questionText := pre, options := options }

example : parseQuestionText "What?\n\nOptions:\n- A\n- B\n- C".data =
    { isMCQ := true, questionText := "What?".data,
      options := ["A".data, "B".data, "C".data] } := by decide

example : parseQuestionText "Just a question".data =
    { isMCQ := false, questionText := "Just a question".data, options := [] } := by decide

example : parseQuestionText "P\n\nOptions:\n- A\n\nOptions:\n- B".data =
    { isMCQ := true, questionText := "P".data, options := ["A".data] } := by decide

/-! ### Data model of the exam-taking page
(`frontend/app/dashboard/student/exams/[id]/page.tsx`) -/

/-- The `Question` record (page.tsx lines 11-16). -/
structure Question where
  id : Nat
  text : List Char
  marks : Int
  question_type : List Char
deriving DecidableEq, Repr

/-- The `Exam` record (page.tsx lines 18-24); `mode` defaults to online and the
claims below concern the online path, so it is a plain `Bool` flag. -/
structure Exam where
  id : Nat
  title : List Char
  duration_minutes : Int
  questions : List Question
  offlineMode : Bool
deriving DecidableEq, Repr

/-- One entry of the `answers` record (page.tsx line 41):
`{ text: string, file: File | null }`, where either field may also be
absent (`undefined`) when the entry was created by editing only the
other field.  A `File` is abstracted to its name. -/
structure Draft where
  text : Option String
  file : Option String
deriving DecidableEq, Repr

/-- The `answers` record state (page.tsx line 41): a finite map from
question id to draft; `none` means the key is absent. -/
abbrev AnswerMap := Nat → Option Draft

/-- JavaScript `x || y` on an optional string `x`: the fallback is
used when `x` is absent (`undefined`) or empty (falsy). -/
def jsOr (x : Option String) (y : String) : String :=
  match x with
  | none => y
  | some s => if s = "" then y else s

/-! ### Answer staging store (page.tsx lines 92-99 and 107-115) -/

/-- Embedding of `handleTextChange` (page.tsx lines 92-99): writes the text of the
draft of the question at `idx`, preserving that draft's file via the
spread `{ ...prev[qId], text }`, and leaving all other keys alone via
`{ ...prev, [qId]: ... }`.  Out-of-range `idx` is a no-op (the source
only calls it with the current question on screen). -/
def handleTextChange (e : Exam) (idx : Nat) (m : AnswerMap) (t : String) : AnswerMap :=
  match e.questions[idx]? with
  | none => m
  | some q => fun k =>
      if k = q.id then some { text := some t, file := (m q.id).bind Draft.file }
      else m k

/-- Embedding of `handleFileChange` (page.tsx lines 107-115): writes the attached
file of the draft of the question at `idx`, preserving that draft's
text via `{ ...prev[qId], file }`. -/
def handleFileChange (e : Exam) (idx : Nat) (m : AnswerMap) (f : String) : AnswerMap :=
  match e.questions[idx]? with
  | none => m
  | some q => fun k =>
      if k = q.id then some { text := (m q.id).bind Draft.text, file := some f }
      else m k

/-! ### Submission pipeline (page.tsx lines 117-137) -/

/-- One element of `payload.answers` (page.tsx lines 125-129). -/
structure AnswerEntry where
  question_id : Nat
  answer_text : String
  answer_file_path : Option String
deriving DecidableEq, Repr

/-- The online submission payload (page.tsx lines 123-130). -/
structure Payload where
  exam_id : Nat
  answers : List AnswerEntry
deriving DecidableEq, Repr

/-- The payload constructed inside `handleSubmit` (page.tsx lines
123-130): one entry per exam question, `answer_text` is
`answers[q.id]?.text || ""`, and `answer_file_path` is the literal
`null`. -/
def buildPayload (e : Exam) (m : AnswerMap) : Payload :=
  { exam_id := e.id
  , answers := e.questions.map (fun q =>
      { question_id := q.id
      , answer_text := jsOr ((m q.id).bind Draft.text) ""
      , answer_file_path := none }) }

/-- The error object caught by `handleSubmit`'s `catch` (page.tsx
lines 133-136): `err.response?.data?.detail` collapsed into an
optional string, plus `err.message`. -/
structure ErrInfo where
  detail : Option String
  message : String
deriving DecidableEq, Repr

/-- Outcome of `api.post("/submissions/submit", payload)`. -/
inductive PostResult where
  | ok : PostResult
  | err : ErrInfo → PostResult
deriving DecidableEq, Repr

/-- The page state handled by `handleSubmit`: the staged answers, the
in-flight flag, the navigation target of any `router.push`, and the
last `alert` message. -/
structure SessionState where
  answers : AnswerMap
  submitting : Bool
  navigatedTo : Option String
  alertMsg : Option String

/-- Embedding of `handleSubmit` (page.tsx lines 117-137) for a loaded exam.  The
`!auto && !confirm(...)` early return keeps the state and issues no
request; otherwise `setSubmitting(true)` runs, the payload is posted,
success navigates to the results route, and failure alerts
`"Submission failed: " + (err.response?.data?.detail || err.message)`
and resets the in-flight flag.  The second component is the request
that was issued, if any. -/
def handleSubmit (e : Exam) (st : SessionState) (auto confirmOk : Bool)
    (svc : PostResult) : SessionState × Option Payload :=
  if !auto && !confirmOk then (st, none)
  else
    let payload := buildPayload e st.answers
    match svc with
    | .ok =>
        ({ st with submitting := true,
                   navigatedTo := some "/dashboard/student/results" }, some payload)
    | .err i =>
        ({ st with submitting := false,
                   alertMsg := some ("Submission failed: " ++ jsOr i.detail i.message) },
         some payload)

/-! ### In-flight submission guard (page.tsx lines 86-90, 117-121 and
the `disabled={submitting}` attribute on the submit button, line 469) -/

/-- The part of the page state the double-submission guard acts on:
the `submitting` flag and the number of submission requests issued so
far. -/
structure SubmitMachine where
  submitting : Bool
  requests : Nat
deriving DecidableEq, Repr

/-- A submission trigger: a timer-expiry auto-submit, or a manual
click on the submit button carrying the user's `confirm` answer. -/
inductive SubmitEvent where
  | timerExpiry : SubmitEvent
  | manualClick : Bool → SubmitEvent
deriving DecidableEq, Repr

/-- One submission trigger against the guard.  `timerExpiry` runs
`handleAutoSubmit` (page.tsx lines 86-90): `if (submitting) return`
else `handleSubmit(true)`, which posts unconditionally.  A manual
click reaches `handleSubmit(false)` only while the submit button is
enabled (`disabled={submitting}`, page.tsx line 469), and then posts
only when the user confirms. -/
def submitStep (s : SubmitMachine) (ev : SubmitEvent) : SubmitMachine :=
  match ev with
  | .timerExpiry =>
      if s.submitting then s
      else { submitting := true, requests := s.requests + 1 }
  | .manualClick confirmOk =>
      if s.submitting then s
      else if confirmOk then { submitting := true, requests := s.requests + 1 }
      else s

/-! ### Countdown timer (page.tsx lines 68-84) -/

/-- One `setInterval` tick (page.tsx lines 72-80): at `prev ≤ 1` the
interval is cleared, `handleAutoSubmit` fires and the clock is pinned
to `0`; otherwise the clock decreases by one.  The boolean records
whether the auto-submit path fired on this tick. -/
def timerTick (t : Int) : Int × Bool :=
  if t ≤ 1 then (0, true) else (t - 1, false)

/-- Run `n` scheduler rounds of the timer effect (page.tsx lines 68-84)
from clock value `t`: the effect installs no interval when `t ≤ 0`
(the `timeLeft <= 0` early return, line 69), so nothing further
happens; otherwise one tick runs per round.  Returns the final clock
value and how many times the auto-submit path fired. -/
def timerRun : Nat → Int → Int × Nat
  | 0, t => (t, 0)
  | n + 1, t =>
    if t ≤ 0 then (t, 0)
    else
      let r := timerRun n (timerTick t).1
      (r.1, (if (timerTick t).2 then 1 else 0) + r.2)

/-! ### Exam loader and page rendering (page.tsx lines 46-65, 139-153) -/

/-- The `error.response` object visible to `fetchExam`'s `catch`
(page.tsx lines 53-59): a status code and the optional
`response.data.detail` string. -/
structure RespInfo where
  status : Int
  detail : Option String
deriving DecidableEq, Repr

/-- Outcome of `api.get("/exams/" + examId)`: success with the exam
data, or failure with an optional response (absent on network
errors). -/
inductive LoadResult where
  | success : Exam → LoadResult
  | failure : Option RespInfo → LoadResult
deriving DecidableEq, Repr

/-- The page-level state set by `fetchExam` (page.tsx lines 31-38). -/
structure PageState where
  exam : Option Exam
  loading : Bool
  error : Option String
  timeLeft : Option Int
deriving DecidableEq, Repr

/-- Initial hook state (page.tsx lines 31-38): no exam, loading, no
error, no clock. -/
def initState : PageState :=
  { exam := none, loading := true, error := none, timeLeft := none }

/-- Embedding of `fetchExam` (page.tsx lines 46-65).  On success the exam is stored
and the clock initialised to `duration_minutes * 60`; on failure a 403
response surfaces `detail || "Access Denied"` and anything else the
generic `"Failed to load exam."`; `finally` clears `loading`. -/
def fetchExamResult (r : LoadResult) (s : PageState) : PageState :=
  match r with
  | .success e =>
      { s with exam := some e, timeLeft := some (e.duration_minutes * 60),
               loading := false }
  | .failure resp =>
      let msg :=
        if resp.map RespInfo.status = some 403 then
          jsOr (resp.bind RespInfo.detail) "Access Denied"
        else "Failed to load exam."
      { s with error := some msg, loading := false }

/-- What the page renders (page.tsx lines 139-153): the loading
spinner, the terminal error box with its message, the exam-taking view
(timer plus question renderer), or nothing. -/
inductive View where
  | spinner : View
  | errorBox : String → View
  | examView : Exam → View
  | blank : View
deriving DecidableEq, Repr

/-- The top-level render branches (page.tsx lines 139-153), in source
order: `loading` wins, then `error`, then a missing exam renders
nothing, else the exam-taking view. -/
def render (s : PageState) : View :=
  if s.loading then View.spinner
  else
    match s.error with
    | some msg => View.errorBox msg
    | none =>
      match s.exam with
      | some e => View.examView e
      | none => View.blank

/-! ### Lemmas about the marker search -/

/-- Statement that `sep` occurs nowhere as a contiguous segment of `l`. -/
def noOccur (sep l : List Char) : Prop :=
  ∀ a b : List Char, l ≠ a ++ (sep ++ b)

/-- The occurrence of `sep` sitting between `pre` and `tail` is the
first occurrence of `sep` in `pre ++ sep ++ tail`. -/
def firstAt (sep pre tail : List Char) : Prop :=
  ∀ a b : List Char, pre ++ (sep ++ tail) = a ++ (sep ++ b) → pre.length ≤ a.length

theorem beginsWith_iff (sep l : List Char) :
    beginsWith sep l = true ↔ ∃ t, l = sep ++ t := by
  induction sep generalizing l with
  | nil => simp [beginsWith]
  | cons s ss ih =>
    cases l with
    | nil => simp [beginsWith]
    | cons c cs =>
      simp only [beginsWith, Bool.and_eq_true, beq_iff_eq, ih, List.cons_append]
      constructor
      · rintro ⟨hs, t, ht⟩
        exact ⟨t, by rw [hs, ht]⟩
      · rintro ⟨t, ht⟩
        injection ht with h1 h2
        exact ⟨h1.symm, t, h2⟩

theorem splitFirst_pos (sep l : List Char) (h : beginsWith sep l = true) :
    splitFirst sep l = some ([], l.drop sep.length) := by
  cases l with
  | nil => simp [splitFirst, h]
  | cons c cs => simp [splitFirst, h]

theorem splitFirst_neg (sep : List Char) (c : Char) (cs : List Char)
    (h : beginsWith sep (c :: cs) = false) :
    splitFirst sep (c :: cs) = (splitFirst sep cs).map (fun p => (c :: p.1, p.2)) := by
  simp [splitFirst, h]

theorem splitFirst_eq_some (sep : List Char) :
    ∀ l pre rest : List Char, splitFirst sep l = some (pre, rest) →
      l = pre ++ (sep ++ rest) := by
  intro l
  induction l with
  | nil =>
    intro pre rest h
    simp only [splitFirst] at h
    by_cases hb : beginsWith sep [] = true
    · rw [if_pos hb] at h
      obtain ⟨t, ht⟩ := (beginsWith_iff sep []).1 hb
      obtain ⟨hsep, -⟩ := List.append_eq_nil.mp ht.symm
      injection h with h'
      injection h' with h1 h2
      subst h1; subst h2; subst hsep; rfl
    · rw [if_neg hb] at h
      exact absurd h (by simp)
  | cons c cs ih =>
    intro pre rest h
    by_cases hb : beginsWith sep (c :: cs) = true
    · rw [splitFirst_pos sep _ hb] at h
      obtain ⟨t, ht⟩ := (beginsWith_iff sep (c :: cs)).1 hb
      injection h with h'
      injection h' with h1 h2
      subst h1
      rw [ht] at h2 ⊢
      rw [List.drop_left] at h2
      rw [h2]
      rfl
    · rw [splitFirst_neg sep c cs (by simpa using hb)] at h
      cases hsp : splitFirst sep cs with
      | none => rw [hsp] at h; exact absurd h (by simp)
      | some p =>
        rw [hsp] at h
        simp only [Option.map_some'] at h
        injection h with h'
        injection h' with h1 h2
        subst h1; subst h2
        have := ih p.1 p.2 hsp
        rw [List.cons_append, ← this]

theorem noOccur_of_splitFirst_none (sep : List Char) :
    ∀ l : List Char, splitFirst sep l = none → noOccur sep l := by
  intro l
  induction l with
  | nil =>
    intro h a b hab
    obtain ⟨ha, hsb⟩ := List.append_eq_nil.mp hab.symm
    obtain ⟨hs, -⟩ := List.append_eq_nil.mp hsb
    subst hs
    simp [splitFirst, beginsWith] at h
  | cons c cs ih =>
    intro h a b hab
    by_cases hb : beginsWith sep (c :: cs) = true
    · rw [splitFirst_pos sep _ hb] at h
      exact absurd h (by simp)
    · have hbf : beginsWith sep (c :: cs) = false := by simpa using hb
      rw [splitFirst_neg sep c cs hbf] at h
      have hcs : splitFirst sep cs = none := by
        cases hsp : splitFirst sep cs with
        | none => rfl
        | some p => rw [hsp] at h; exact absurd h (by simp)
      cases a with
      | nil =>
        rw [List.nil_append] at hab
        exact hb ((beginsWith_iff sep (c :: cs)).2 ⟨b, hab⟩)
      | cons a0 as =>
        rw [List.cons_append] at hab
        injection hab with h1 h2
        exact ih hcs as b h2

theorem splitFirst_none_of_noOccur (sep l : List Char) (h : noOccur sep l) :
    splitFirst sep l = none := by
  cases hsp : splitFirst sep l with
  | none => rfl
  | some p => exact absurd (splitFirst_eq_some sep l p.1 p.2 hsp) (h p.1 p.2)

theorem splitFirst_of_firstAt (sep : List Char) :
    ∀ pre tail : List Char, firstAt sep pre tail →
      splitFirst sep (pre ++ (sep ++ tail)) = some (pre, tail) := by
  intro pre
  induction pre with
  | nil =>
    intro tail _
    have hb : beginsWith sep ([] ++ (sep ++ tail)) = true :=
      (beginsWith_iff sep _).2 ⟨tail, by simp⟩
    rw [splitFirst_pos sep _ hb]
    simp [List.drop_left]
  | cons c cs ih =>
    intro tail hfirst
    have hb : beginsWith sep ((c :: cs) ++ (sep ++ tail)) = false := by
      by_contra hb'
      have hbt : beginsWith sep ((c :: cs) ++ (sep ++ tail)) = true := by
        simpa using hb'
      obtain ⟨t, ht⟩ := (beginsWith_iff sep _).1 hbt
      have := hfirst [] t (by simpa using ht)
      simp at this
    rw [List.cons_append, splitFirst_neg sep _ _ (by rwa [List.cons_append] at hb)]
    have hrec : firstAt sep cs tail := by
      intro a b heq
      have := hfirst (c :: a) b (by rw [List.cons_append, heq, List.cons_append])
      simpa using this
    rw [ih tail hrec]
    rfl

theorem marker_decomp : markerL = markerHead ++ ['\n'] := by decide

theorem marker_head_take : markerL.take 10 = markerHead := by decide

theorem marker_length : markerL.length = 11 := by decide

/-- The marker `"\n\nOptions:\n"` has no self-overlap of width `1 ≤ j ≤ 9`: its
length-`j` start glued to its length-`(11-j)` start never rebuilds the
marker. -/
theorem marker_no_border :
    ∀ j : Nat, j < 10 → 1 ≤ j →
      markerL.take j ++ markerL.take (11 - j) ≠ markerL := by decide

/-- A prompt free of the substring `"\n\nOptions:"` cannot create or
shift a marker occurrence: in `P ++ markerL ++ T` the first marker
occurrence is exactly at the end of `P`. -/
theorem firstAt_of_noOccurHead (P T : List Char) (hP : noOccur markerHead P) :
    firstAt markerL P T := by
  intro a b h
  by_contra hlt'
  push_neg at hlt'
  have hlt : a.length < P.length := hlt'
  have ha : P.take a.length = a := by
    have h1 := congrArg (List.take a.length) h
    rw [List.take_append_eq_append_take, Nat.sub_eq_zero_of_le hlt.le,
      List.take_zero, List.append_nil, List.take_left] at h1
    exact h1
  have hPs : P = a ++ P.drop a.length := by
    conv_lhs => rw [← List.take_append_drop a.length P]
    rw [ha]
  set s := P.drop a.length with hs_def
  have hslen : s.length = P.length - a.length := List.length_drop a.length P
  have hspos : 1 ≤ s.length := by omega
  have heq : s ++ (markerL ++ T) = markerL ++ b := by
    have heq0 : a ++ (s ++ (markerL ++ T)) = a ++ (markerL ++ b) := by
      rw [← List.append_assoc, ← hPs, h]
    exact List.append_cancel_left heq0
  have h2 := congrArg (List.take markerL.length) heq
  rw [List.take_left] at h2
  rcases le_or_lt markerL.length s.length with hA | hB
  · rw [List.take_append_eq_append_take, Nat.sub_eq_zero_of_le hA,
      List.take_zero, List.append_nil] at h2
    have hPfull : P = a ++ (markerHead ++ ('\n' :: s.drop markerL.length)) := by
      calc P = a ++ s := hPs
        _ = a ++ (s.take markerL.length ++ s.drop markerL.length) := by
              rw [List.take_append_drop]
        _ = a ++ (markerL ++ s.drop markerL.length) := by rw [h2]
        _ = a ++ ((markerHead ++ ['\n']) ++ s.drop markerL.length) := by
              rw [marker_decomp]
        _ = a ++ (markerHead ++ ('\n' :: s.drop markerL.length)) := by
              rw [List.append_assoc]; rfl
    exact hP a ('\n' :: s.drop markerL.length) hPfull
  · rw [List.take_append_eq_append_take, List.take_of_length_le hB.le,
      List.take_append_eq_append_take] at h2
    have hz : markerL.length - s.length - markerL.length = 0 := by omega
    rw [hz, List.take_zero, List.append_nil] at h2
    have hs_take : s = markerL.take s.length := by
      have h3 := congrArg (List.take s.length) h2
      rw [List.take_append_eq_append_take, Nat.sub_self, List.take_zero,
        List.append_nil, List.take_of_length_le (le_refl s.length)] at h3
      exact h3
    by_cases hj10 : s.length = 10
    · have hsh : s = markerHead := by rw [hs_take, hj10, marker_head_take]
      have hPfull : P = a ++ (markerHead ++ []) := by
        rw [List.append_nil, ← hsh]; exact hPs
      exact hP a [] hPfull
    · have hjlt : s.length < 11 := by rw [marker_length] at hB; exact hB
      have hjle : s.length < 10 := by omega
      have hcontra := marker_no_border s.length hjle hspos
      rw [marker_length] at h2
      apply hcontra
      rw [← hs_take]
      exact h2

/-! ### Timer lemmas -/

/-- Closed form of the clock value: after `n` rounds the clock reads
`max (t - n) 0`. -/
theorem timerRun_fst : ∀ (n : Nat) (t : Int), 0 ≤ t →
    (timerRun n t).1 = max (t - n) 0 := by
  intro n
  induction n with
  | zero =>
    intro t ht
    simp only [timerRun, Nat.cast_zero, sub_zero]
    omega
  | succ n ih =>
    intro t ht
    simp only [timerRun, timerTick]
    by_cases h0 : t ≤ 0
    · rw [if_pos h0]
      simp only
      push_cast
      omega
    · rw [if_neg h0]
      by_cases h1 : t ≤ 1
      · simp only [if_pos h1]
        rw [ih 0 (le_refl 0)]
        push_cast
        omega
      · simp only [if_neg h1]
        rw [ih (t - 1) (by omega)]
        push_cast
        omega

/-! ### Concrete fixtures used by witnesses and counterexamples -/

/-- A concrete objective question, id 1. -/
def qW1 : Question :=
  { id := 1, text := "1+1?".data, marks := 2, question_type := "objective".data }

/-- A concrete subjective question, id 2. -/
def qW2 : Question :=
  { id := 2, text := "Explain.".data, marks := 5, question_type := "subjective".data }

/-- A concrete two-question online exam, duration 30 minutes. -/
def examW : Exam :=
  { id := 3, title := "Mid".data, duration_minutes := 30,
    questions := [qW1, qW2], offlineMode := false }

/-- The same exam with duration 0 minutes. -/
def examW0 : Exam := { examW with duration_minutes := 0 }

/-- A staging store holding a draft for question 1 only: text
`"hello"` and an attached image. -/
def draftsW : AnswerMap :=
  fun k => if k = 1 then some { text := some "hello", file := some "p.png" } else none

/-- A concrete session state mid-submission. -/
def stW : SessionState :=
  { answers := draftsW, submitting := true, navigatedTo := none, alertMsg := none }

/-- A concrete submission error carrying a service detail string. -/
def errW : ErrInfo := { detail := some "Exam closed", message := "Network Error" }

/-- A concrete 403 load-failure response with a denial reason. -/
def respW : RespInfo := { status := 403, detail := some "Not enrolled" }

/-! ### Claim theorems -/

/-- C1: while one submission is in flight (the `submitting` flag is
set), any further triggers — manual submit clicks (whatever the
confirm answer) and timer-expiry auto-submit events, in any order —
leave the guard state unchanged: no additional submission request is
issued and nothing is queued, so the in-flight request stays the only
one. -/
theorem c1_inflight_guard_noop (s : SubmitMachine) (h : s.submitting = true)
    (evs : List SubmitEvent) :
    evs.foldl submitStep s = s ∧ (evs.foldl submitStep s).requests = s.requests := by
  have hstep : ∀ ev, submitStep s ev = s := by
    intro ev
    cases ev with
    | timerExpiry => simp [submitStep, h]
    | manualClick confirmOk => simp [submitStep, h]
  have hfold : evs.foldl submitStep s = s := by
    induction evs with
    | nil => rfl
    | cons ev evs ih => rw [List.foldl_cons, hstep ev]; exact ih
  exact ⟨hfold, by rw [hfold]⟩

/-- Witness for C1: with one request in flight, a confirmed manual
click followed by a timer expiry changes nothing. -/
theorem c1_inflight_guard_noop_witness :
    [SubmitEvent.manualClick true, SubmitEvent.timerExpiry].foldl submitStep
        { submitting := true, requests := 1 }
      = { submitting := true, requests := 1 } :=
  (c1_inflight_guard_noop { submitting := true, requests := 1 } rfl
    [SubmitEvent.manualClick true, SubmitEvent.timerExpiry]).1

/-- C2 counterexample: loading the concrete 0-minute exam initialises
the clock to 0, and the timer system then issues no auto-submit
request at all (shown over 10 scheduler rounds) — not exactly one as
the claim states, because the effect's `timeLeft <= 0` early return
installs no interval and `handleAutoSubmit` is only ever called from
an interval tick. -/
theorem c2_zero_duration_counterexample :
    (fetchExamResult (LoadResult.success examW0) initState).timeLeft = some 0 ∧
    (timerRun 10 0).2 = 0 ∧ (timerRun 10 0).2 ≠ 1 := by decide

/-- C2 amended: when the remaining seconds are already ≤ 0 at the
time the timer effect evaluates (e.g. a 0-minute exam), the timer
never starts: over any number of scheduler rounds the clock value is
unchanged — in particular it is never decremented below zero — and
zero auto-submit requests are issued; submission requires manual
action. -/
theorem c2_expired_clock_no_autosubmit (n : Nat) (t : Int) (ht : t ≤ 0) :
    timerRun n t = (t, 0) := by
  cases n with
  | zero => rfl
  | succ n => simp [timerRun, ht]

/-- Witness for C2 (amended): five rounds at clock 0 do nothing. -/
theorem c2_expired_clock_no_autosubmit_witness :
    timerRun 5 0 = (0, 0) :=
  c2_expired_clock_no_autosubmit 5 0 (by decide)

/-- C6: after a successful load of an exam with duration D > 0
minutes, the clock starts at `D*60` seconds; after `n` rounds it
reads `max (D*60 - n) 0`, so it is never negative, and while it is
positive each further tick decreases it by exactly 1 until it reaches
0. -/
theorem c6_timer_monotone (e : Exam) (hD : 0 < e.duration_minutes) (n : Nat) :
    (fetchExamResult (LoadResult.success e) initState).timeLeft
        = some (e.duration_minutes * 60) ∧
    (timerRun n (e.duration_minutes * 60)).1 = max (e.duration_minutes * 60 - n) 0 ∧
    0 ≤ (timerRun n (e.duration_minutes * 60)).1 ∧
    (0 < (timerRun n (e.duration_minutes * 60)).1 →
      (timerRun (n + 1) (e.duration_minutes * 60)).1
          = (timerRun n (e.duration_minutes * 60)).1 - 1) := by
  have h0 : (0 : Int) ≤ e.duration_minutes * 60 := by omega
  refine ⟨rfl, timerRun_fst n _ h0, ?_, ?_⟩
  · rw [timerRun_fst n _ h0]
    omega
  · intro hpos
    rw [timerRun_fst n _ h0] at hpos ⊢
    rw [timerRun_fst (n + 1) _ h0]
    push_cast
    omega

/-- Witness for C6: the 30-minute exam starts at 1800 seconds and
after 2 rounds reads 1798. -/
theorem c6_timer_monotone_witness :
    (fetchExamResult (LoadResult.success examW) initState).timeLeft
        = some (examW.duration_minutes * 60) ∧
    (timerRun 2 (examW.duration_minutes * 60)).1
        = max (examW.duration_minutes * 60 - 2) 0 := by
  have h := c6_timer_monotone examW (by decide) 2
  exact ⟨h.1, h.2.1⟩

/-- C3: for any staging store whatsoever, the online submission
payload has exactly one answer entry per exam question; the entry at
position `i` carries the id of question `i`, its text is
`answers[q.id]?.text || ""`, and a question with no draft gets the
empty string. -/
theorem c3_answer_completeness (e : Exam) (m : AnswerMap) (i : Nat) (q : Question)
    (hq : e.questions[i]? = some q) :
    (buildPayload e m).answers.length = e.questions.length ∧
    ∃ a : AnswerEntry, (buildPayload e m).answers[i]? = some a ∧
      a.question_id = q.id ∧
      a.answer_text = jsOr ((m q.id).bind Draft.text) "" ∧
      (m q.id = none → a.answer_text = "") := by
  refine ⟨by simp [buildPayload], ?_⟩
  refine ⟨{ question_id := q.id, answer_text := jsOr ((m q.id).bind Draft.text) "",
            answer_file_path := none }, ?_, rfl, rfl, ?_⟩
  · simp [buildPayload, List.getElem?_map, hq]
  · intro hm
    show jsOr ((m q.id).bind Draft.text) "" = ""
    rw [hm]
    rfl

/-- Witness for C3: in the two-question exam with a draft only for
question 1, the entry for unvisited question 2 exists and is empty. -/
theorem c3_answer_completeness_witness :
    (buildPayload examW draftsW).answers.length = examW.questions.length ∧
    ∃ a : AnswerEntry, (buildPayload examW draftsW).answers[1]? = some a ∧
      a.question_id = qW2.id ∧
      a.answer_text = jsOr ((draftsW qW2.id).bind Draft.text) "" ∧
      (draftsW qW2.id = none → a.answer_text = "") :=
  c3_answer_completeness examW draftsW 1 qW2 (by decide)

/-- C9: every answer entry of the online submission payload carries a
null `answer_file_path`, even when the corresponding draft has an
attached image: the online path never transmits files. -/
theorem c9_no_file_transmitted (e : Exam) (m : AnswerMap) (a : AnswerEntry)
    (ha : a ∈ (buildPayload e m).answers) : a.answer_file_path = none := by
  simp only [buildPayload, List.mem_map] at ha
  obtain ⟨q, -, rfl⟩ := ha
  rfl

/-- Witness for C9: question 1's draft has an attached image, yet its
payload entry has a null file path. -/
theorem c9_no_file_transmitted_witness :
    ({ question_id := 1, answer_text := "hello",
       answer_file_path := none } : AnswerEntry).answer_file_path = none :=
  c9_no_file_transmitted examW draftsW _ (by decide)

/-- C10: writing the displayed question's draft text touches neither
that draft's attached file nor any other question's draft entry, and
writing the attached file touches neither the draft's text nor any
other entry. -/
theorem c10_staging_frame (e : Exam) (idx : Nat) (q : Question)
    (hq : e.questions[idx]? = some q) (m : AnswerMap) (t f : String) (k : Nat)
    (hk : k ≠ q.id) :
    handleTextChange e idx m t k = m k ∧
    (handleTextChange e idx m t q.id).bind Draft.file = (m q.id).bind Draft.file ∧
    handleFileChange e idx m f k = m k ∧
    (handleFileChange e idx m f q.id).bind Draft.text = (m q.id).bind Draft.text := by
  simp only [handleTextChange, handleFileChange, hq]
  refine ⟨by rw [if_neg hk], by simp, by rw [if_neg hk], by simp⟩

/-- Witness for C10: editing question 1 on the concrete store leaves
question 2's (absent) entry and question 1's other field alone. -/
theorem c10_staging_frame_witness :
    handleTextChange examW 0 draftsW "new text" 2 = draftsW 2 ∧
    (handleFileChange examW 0 draftsW "q.png" qW1.id).bind Draft.text
        = (draftsW qW1.id).bind Draft.text := by
  have h := c10_staging_frame examW 0 qW1 (by decide) draftsW "new text" "q.png" 2
    (by decide)
  exact ⟨h.1, h.2.2.2⟩

/-- C7: when the submission request fails (past the confirmation
gate), the user is alerted with the service detail string when it is
present and non-empty — otherwise with the error's own message as
fallback — the in-flight flag is reset so a retry is possible, no
navigation occurs, and the staging store, with every draft's text and
attached file, is untouched. -/
theorem c7_failure_nondestructive (e : Exam) (st : SessionState)
    (auto confirmOk : Bool) (i : ErrInfo) (hgo : auto = true ∨ confirmOk = true) :
    (handleSubmit e st auto confirmOk (PostResult.err i)).1.submitting = false ∧
    (handleSubmit e st auto confirmOk (PostResult.err i)).1.navigatedTo
        = st.navigatedTo ∧
    (handleSubmit e st auto confirmOk (PostResult.err i)).1.answers = st.answers ∧
    (handleSubmit e st auto confirmOk (PostResult.err i)).1.alertMsg
        = some ("Submission failed: " ++ jsOr i.detail i.message) ∧
    (∀ d, i.detail = some d → d ≠ "" →
      (handleSubmit e st auto confirmOk (PostResult.err i)).1.alertMsg
          = some ("Submission failed: " ++ d)) := by
  have hcond : (!auto && !confirmOk) = false := by
    rcases hgo with h | h <;> simp [h]
  simp only [handleSubmit, hcond, Bool.false_eq_true, if_false]
  refine ⟨trivial, trivial, trivial, trivial, ?_⟩
  intro d hd hne
  simp [jsOr, hd, hne]

/-- Witness for C7: a concrete failed auto-submit from the concrete
mid-submission state surfaces the service detail, resets the flag and
keeps the drafts. -/
theorem c7_failure_nondestructive_witness :
    (handleSubmit examW stW true true (PostResult.err errW)).1.submitting = false ∧
    (handleSubmit examW stW true true (PostResult.err errW)).1.navigatedTo
        = stW.navigatedTo ∧
    (handleSubmit examW stW true true (PostResult.err errW)).1.answers = stW.answers ∧
    (handleSubmit examW stW true true (PostResult.err errW)).1.alertMsg
        = some "Submission failed: Exam closed" := by
  have h := c7_failure_nondestructive examW stW true true errW (Or.inl rfl)
  exact ⟨h.1, h.2.1, h.2.2.1, (h.2.2.2.2 "Exam closed" rfl (by decide)).trans (by rfl)⟩

/-- C8: a failed exam load renders the terminal error box and never
the exam-taking view, and the clock is never initialised; a 403
response shows its denial reason verbatim when present and non-empty,
"Access Denied" when the reason is absent (or empty), and any other
failure shows the fixed generic message, which differs from the 403
fallback. -/
theorem c8_load_failure_terminal (resp : Option RespInfo) :
    (∀ ri d, resp = some ri → ri.status = 403 → ri.detail = some d → d ≠ "" →
      render (fetchExamResult (LoadResult.failure resp) initState)
          = View.errorBox d) ∧
    (∀ ri, resp = some ri → ri.status = 403 → (ri.detail = none ∨ ri.detail = some "") →
      render (fetchExamResult (LoadResult.failure resp) initState)
          = View.errorBox "Access Denied") ∧
    (resp.map RespInfo.status ≠ some 403 →
      render (fetchExamResult (LoadResult.failure resp) initState)
          = View.errorBox "Failed to load exam.") ∧
    ("Access Denied" : String) ≠ "Failed to load exam." ∧
    (∀ e : Exam, render (fetchExamResult (LoadResult.failure resp) initState)
        ≠ View.examView e) ∧
    (fetchExamResult (LoadResult.failure resp) initState).timeLeft = none := by
  refine ⟨?_, ?_, ?_, by decide, ?_, rfl⟩
  · rintro ri d rfl h403 hd hne
    simp [fetchExamResult, render, initState, h403, hd, jsOr, hne]
  · rintro ri rfl h403 hd
    rcases hd with hd | hd <;>
      simp [fetchExamResult, render, initState, h403, hd, jsOr]
  · intro hne
    have hr : render (fetchExamResult (LoadResult.failure resp) initState)
        = View.errorBox (if resp.map RespInfo.status = some 403
            then jsOr (resp.bind RespInfo.detail) "Access Denied"
            else "Failed to load exam.") := rfl
    rw [hr, if_neg hne]
  · intro e
    simp [fetchExamResult, render, initState]

/-- Witness for C8: the concrete 403 response with reason
"Not enrolled" renders that reason verbatim. -/
theorem c8_load_failure_terminal_witness :
    render (fetchExamResult (LoadResult.failure (some respW)) initState)
        = View.errorBox "Not enrolled" :=
  (c8_load_failure_terminal (some respW)).1 respW "Not enrolled" rfl rfl rfl (by decide)

/-- An option block that itself contains the marker again:
`"- A\n\nOptions:\n- B"`. -/
def cexDoubleBlock : List Char := "- A\n\nOptions:\n- B".data

/-- C4 counterexample: on `"P" ++ marker ++ cexDoubleBlock` — a
prompt, the first marker, and an option block containing the marker a
second time — the claim predicts options parsed from everything after
the first marker, `["A", "B"]`, but the code returns only `["A"]`:
`split` cuts at every occurrence and only `parts[1]`, the segment
before the second marker, is read. -/
theorem c4_first_marker_counterexample :
    parseOptions cexDoubleBlock = ["A".data, "B".data] ∧
    parseQuestionText ("P".data ++ markerL ++ cexDoubleBlock)
        = { isMCQ := true, questionText := "P".data, options := ["A".data] } ∧
    (["A".data] : List (List Char)) ≠ ["A".data, "B".data] := by decide

/-- C4 amended: the prompt is everything before the first marker
occurrence, but the options are parsed only from the segment between
the first marker occurrence and the next one — from everything after
the first marker only when the marker occurs exactly once; if the
marker is absent, or zero options parse, the question is treated as
free text with the original text unchanged. -/
theorem c4_amended_first_marker_split :
    (∀ text : List Char, noOccur markerL text →
      parseQuestionText text
          = { isMCQ := false, questionText := text, options := [] }) ∧
    (∀ pre tail : List Char, firstAt markerL pre tail → noOccur markerL tail →
      parseQuestionText (pre ++ (markerL ++ tail))
          = if parseOptions tail = []
            then { isMCQ := false, questionText := pre ++ (markerL ++ tail),
                   options := [] }
            else { isMCQ := true, questionText := pre,
                   options := parseOptions tail }) ∧
    (∀ pre blk post : List Char,
      firstAt markerL pre (blk ++ (markerL ++ post)) → firstAt markerL blk post →
      parseQuestionText (pre ++ (markerL ++ (blk ++ (markerL ++ post))))
          = if parseOptions blk = []
            then { isMCQ := false,
                   questionText := pre ++ (markerL ++ (blk ++ (markerL ++ post))),
                   options := [] }
            else { isMCQ := true, questionText := pre,
                   options := parseOptions blk }) := by
  refine ⟨?_, ?_, ?_⟩
  · intro text hno
    have h1 := splitFirst_none_of_noOccur markerL text hno
    simp only [parseQuestionText, h1]
  · intro pre tail hfirst hno
    have h1 := splitFirst_of_firstAt markerL pre tail hfirst
    have h2 := splitFirst_none_of_noOccur markerL tail hno
    simp only [parseQuestionText, h1, h2]
  · intro pre blk post hfirst1 hfirst2
    have h1 := splitFirst_of_firstAt markerL pre (blk ++ (markerL ++ post)) hfirst1
    have h2 := splitFirst_of_firstAt markerL blk post hfirst2
    simp only [parseQuestionText, h1, h2]

/-- Witness for C4 (amended): a single-marker text parses its prompt
and both options after the marker. -/
theorem c4_amended_first_marker_split_witness :
    parseQuestionText ("Pick one".data ++ (markerL ++ "- A\n- B".data))
        = { isMCQ := true, questionText := "Pick one".data,
            options := ["A".data, "B".data] } := by
  have hfa : firstAt markerL "Pick one".data "- A\n- B".data :=
    firstAt_of_noOccurHead "Pick one".data "- A\n- B".data
      (noOccur_of_splitFirst_none markerHead "Pick one".data (by decide))
  have hno : noOccur markerL "- A\n- B".data :=
    noOccur_of_splitFirst_none markerL "- A\n- B".data (by decide)
  have h := c4_amended_first_marker_split.2.1 "Pick one".data "- A\n- B".data hfa hno
  rw [h]
  decide

/-- A prompt that itself contains the options marker:
`"X\n\nOptions:\n- Q"`. -/
def cexPromptWithMarker : List Char := "X\n\nOptions:\n- Q".data

/-- C5 counterexample: the round-trip fails for a prompt containing
the marker: parsing `cexPromptWithMarker ++ marker ++ "- A\n- B\n- C"`
does not return the prompt with options `["A","B","C"]` (the code
yields `questionText = "X"` and `options = ["Q"]`). -/
theorem c5_roundtrip_counterexample :
    parseQuestionText (cexPromptWithMarker ++ (markerL ++ "- A\n- B\n- C".data))
        ≠ { isMCQ := true, questionText := cexPromptWithMarker,
            options := ["A".data, "B".data, "C".data] } := by decide

/-- C5 amended: for any prompt free of the substring `"\n\nOptions:"`,
parsing `"<prompt>\n\nOptions:\n- A\n- B\n- C"` yields `isMCQ = true`,
the prompt, and options `["A","B","C"]`; and any text in which the
marker does not occur parses as free text: `isMCQ = false`, the
original text unchanged, and no options. -/
theorem c5_mcq_roundtrip_amended :
    (∀ P : List Char, noOccur markerHead P →
      parseQuestionText (P ++ (markerL ++ "- A\n- B\n- C".data))
          = { isMCQ := true, questionText := P,
              options := ["A".data, "B".data, "C".data] }) ∧
    (∀ text : List Char, noOccur markerL text →
      parseQuestionText text
          = { isMCQ := false, questionText := text, options := [] }) := by
  constructor
  · intro P hP
    have hfa := firstAt_of_noOccurHead P "- A\n- B\n- C".data hP
    have h1 := splitFirst_of_firstAt markerL P "- A\n- B\n- C".data hfa
    have h2 : splitFirst markerL "- A\n- B\n- C".data = none := by decide
    have h3 : parseOptions "- A\n- B\n- C".data
        = ["A".data, "B".data, "C".data] := by decide
    simp only [parseQuestionText, h1, h2, h3]
    rw [if_neg (by decide : ¬(["A".data, "B".data, "C".data]
      = ([] : List (List Char))))]
  · intro text hno
    have h1 := splitFirst_none_of_noOccur markerL text hno
    simp only [parseQuestionText, h1]

/-- Witness for C5 (amended): a concrete marker-free prompt round-trips. -/
theorem c5_mcq_roundtrip_amended_witness :
    parseQuestionText ("Capital?".data ++ (markerL ++ "- A\n- B\n- C".data))
        = { isMCQ := true, questionText := "Capital?".data,
            options := ["A".data, "B".data, "C".data] } :=
  c5_mcq_roundtrip_amended.1 "Capital?".data
    (noOccur_of_splitFirst_none markerHead "Capital?".data (by decide))
